import Mathlib

/-!
Shallow embedding of the ShareDB client `Connection` (src/lib/client/connection.ts)
and the server-side `PubSub` core (src/lib/pubsub/pubsub.ts).

Conventions of the embedding:
* JS `undefined`/`null` fields are `Option _`; JS truthiness of an object-valued
  field is `Option.isSome` (for strings, truthiness additionally excludes `""`).
* Event-emitter side effects are returned as an explicit list of `CEvent`s in
  emission order; external collaborator callbacks (`Doc._onConnectionStateChanged`,
  `Query._onConnectionStateChanged`, `doc[method](...)`) are recorded as events /
  call records rather than executed, since `Doc` and `Query` are out of scope.
* JS objects used as string-keyed maps are association lists in iteration order;
  object keys are unique.
* Opaque payload values (document data, versions) are modelled as `Nat`.
-/

/-- The five connection states of the client state machine. -/
inductive ConnState
  | connecting
  | connected
  | disconnected
  | closed
  | stopped
deriving DecidableEq

/-- The string name of a state, as used in the 5007 error message. -/
def stateName : ConnState → String
  | .connecting => "connecting"
  | .connected => "connected"
  | .disconnected => "disconnected"
  | .closed => "closed"
  | .stopped => "stopped"

/-- Outbound wire frames produced by `_sendBulk` (src: connection.ts `_sendBulk`).
`single` is `{a, c, d}`, `singleV` is `{a, c, d, v}`, `bulkArr` is
`{a: 'b'+action, c, b: [ids]}`, `bulkMap` is `{a: 'b'+action, c, b: {id: v}}`. -/
inductive Frame
  | single (a c d : String)
  | singleV (a c d : String) (v : Nat)
  | bulkArr (a c : String) (b : List String)
  | bulkMap (a c : String) (b : List (String × Nat))
deriving DecidableEq

/-- Observable effects emitted by the connection, in order of emission. -/
inductive CEvent
  | errorEvt (code : Nat) (msg : String)
  | named (s : ConnState) (reason : Option String)
  | stateChanged (s : ConnState) (reason : Option String)
  | notifyQuery (qid : Nat)
  | notifyDoc (coll docId : String)
  | sendFrame (fr : Frame)
deriving DecidableEq

/-- The per-collection slot of the bulk accumulator: for each of the three
actions `f`, `s`, `u`, an optional map `docId -> version | ⊥`
(src: connection.ts `_sendAction`, `this.bulk[doc.collection]`). -/
structure BulkActions where
  f : Option (List (String × Option Nat))
  s : Option (List (String × Option Nat))
  u : Option (List (String × Option Nat))
deriving DecidableEq

/-- The connection's mutable fields that the modelled operations touch
(src: connection.ts constructor). `collections` is the document registry
`collection -> list of doc ids`; `queries` the query registry (ids). -/
structure Conn where
  state : ConnState
  canSend : Bool
  seq : Nat
  id : Option String
  agent : Option String
  collections : List (String × List String)
  queries : List Nat
  bulk : Option (List (String × BulkActions))
deriving DecidableEq

/-- src: connection.ts `Connection.connectionState` — readyState 0 or 1 means
`connecting`, anything else `disconnected`. -/
def connectionStateOf (readyState : Nat) : ConnState :=
  if readyState = 0 ∨ readyState = 1 then .connecting else .disconnected

/-- src: connection.ts `_reset` — `seq = 1`, `id = null`, `agent = null`. -/
def resetConn (c : Conn) : Conn :=
  { c with seq := 1, id := none, agent := none }

/-- One pass of `_sendBulk`'s loop: keys whose value is `null`ish, in order. -/
def bulkIds : List (String × Option Nat) → List String
  | [] => []
  | (i, none) :: rest => i :: bulkIds rest
  | (_, some _) :: rest => bulkIds rest

/-- One pass of `_sendBulk`'s loop: keyed versions (`versions[id] = value`),
in order; `versionId` is the key of the last entry. -/
def bulkVersions : List (String × Option Nat) → List (String × Nat)
  | [] => []
  | (_, none) :: rest => bulkVersions rest
  | (i, some v) :: rest => (i, v) :: bulkVersions rest

/-- The frames emitted for the version-absent group: one single-form frame for
exactly one id, one bulk-form frame for several, none for zero
(src: connection.ts `_sendBulk`, the `ids` branch). -/
def idFrames (action c : String) : List String → List Frame
  | [] => []
  | [i] => [.single action c i]
  | is => [.bulkArr ("b" ++ action) c is]

/-- The frames emitted for the versioned group (src: `_sendBulk`, the
`versions` branch; with one entry the frame carries the last — only —
`versionId` and its version). -/
def versionFrames (action c : String) : List (String × Nat) → List Frame
  | [] => []
  | [(i, v)] => [.singleV action c i v]
  | vs => [.bulkMap ("b" ++ action) c vs]

/-- src: connection.ts `_sendBulk` — `if (!values) return;` then partition the
entries into nullish-valued ids and versioned entries and emit the id-group
frames followed by the version-group frames. -/
def sendBulk (action c : String) (values : Option (List (String × Option Nat))) : List Frame :=
  match values with
  | none => []
  | some vs => idFrames action c (bulkIds vs) ++ versionFrames action c (bulkVersions vs)

/-- src: connection.ts `endBulk` — flush each collection's `f`, `s`, `u`
groups in that order. -/
def endBulkFrames (b : Option (List (String × BulkActions))) : List Frame :=
  match b with
  | none => []
  | some acc => acc.flatMap fun p =>
      sendBulk "f" p.1 p.2.f ++ sendBulk "s" p.1 p.2.s ++ sendBulk "u" p.1 p.2.u

/-- Whether a state is `connected`, as a `Bool` (for the `canSend` field). -/
def isConnected : ConnState → Bool
  | .connected => true
  | _ => false

/-- src: connection.ts `_setState`. A no-op when the state is unchanged;
an `error` emission (code 5007) on an illegal transition; otherwise updates
`state`/`canSend`, resets on entering a terminal-ish state, opens a bulk
window, notifies every query and document, flushes the bulk window, and
emits the state-named then the generic `state` event. -/
def setState (c : Conn) (ns : ConnState) (reason : Option String) : Conn × List CEvent :=
  if c.state = ns then (c, [])
  else if (ns = .connecting ∧ c.state ≠ .disconnected ∧ c.state ≠ .stopped ∧ c.state ≠ .closed)
      ∨ (ns = .connected ∧ c.state ≠ .connecting) then
    (c, [.errorEvt 5007
      ("Cannot transition directly from " ++ stateName c.state ++ " to " ++ stateName ns)])
  else
    let c1 : Conn := { c with state := ns, canSend := isConnected ns }
    let c2 : Conn :=
      if ns = .disconnected ∨ ns = .stopped ∨ ns = .closed then resetConn c1 else c1
    let c3 : Conn := { c2 with bulk := some (c2.bulk.getD []) }
    let notifyEvts : List CEvent :=
      c3.queries.map CEvent.notifyQuery ++
        c3.collections.flatMap (fun p => p.2.map (fun d => CEvent.notifyDoc p.1 d))
    let frames := endBulkFrames c3.bulk
    let c4 : Conn := { c3 with bulk := none }
    (c4, notifyEvts ++ frames.map CEvent.sendFrame ++ [.named ns reason, .stateChanged ns reason])

/-- src: connection.ts `handleMessage`, case `'init'`. `typeMatches ty` models
`types.map[message.type] === types.defaultType` (the `types` registry is an
external collaborator); `idStr = none` models `typeof message.id !== 'string'`.
On success the client id is assigned and `_setState('connected')` is invoked. -/
def handleInit (typeMatches : Option String → Bool) (c : Conn)
    (protocol : Option Nat) (ty : Option String) (idStr : Option String) :
    Conn × List CEvent :=
  if protocol ≠ some 1 then (c, [.errorEvt 4019 "Invalid protocol version"])
  else if typeMatches ty = false then (c, [.errorEvt 4020 "Invalid default type"])
  else
    match idStr with
    | none => (c, [.errorEvt 4021 "Invalid client id"])
    | some s => setState { c with id := some s } .connected none

/-- The error envelope `{code, message}` a server message may carry. -/
structure ErrEnv where
  code : Nat
  msg : String
deriving DecidableEq

/-- The doc handler a bulk reply is routed to: `'bf' -> _handleFetch`,
`'bs' -> _handleSubscribe`, `'bu' -> _handleUnsubscribe`. -/
inductive DocMethod
  | handleFetch
  | handleSubscribe
  | handleUnsubscribe
deriving DecidableEq

/-- A recorded invocation `doc[method](err, data?)` on the registered document
`(coll, docId)` (the `Doc` itself is an external collaborator). -/
structure DocCall where
  coll : String
  docId : String
  method : DocMethod
  err : Option ErrEnv
  payload : Option Nat
deriving DecidableEq

/-- The `b` field of a bulk reply: a JSON array of ids, or an object mapping
id to version. -/
inductive BulkB
  | arr (is : List String)
  | map (m : List (String × Nat))
deriving DecidableEq

/-- src: connection.ts `getExisting` — truthiness of
`this.collections[collection] && this.collections[collection][id]`. -/
def getExisting (c : Conn) (coll docId : String) : Bool :=
  match c.collections.find? (fun p => p.1 = coll) with
  | none => false
  | some p => p.2.contains docId

/-- src: connection.ts `_handleBulkMessage`. `data` takes precedence over `b`;
each branch forwards `message.error` (the field as it stands when the method
runs) to every document present in the registry. -/
def handleBulkMessage (c : Conn) (coll : String)
    (data : Option (List (String × Nat))) (b : Option BulkB)
    (error : Option ErrEnv) (method : DocMethod) : List DocCall :=
  match data with
  | some entries =>
    entries.filterMap fun p =>
      if getExisting c coll p.1 then some ⟨coll, p.1, method, error, some p.2⟩ else none
  | none =>
    match b with
    | some (.arr is) =>
      is.filterMap fun i =>
        if getExisting c coll i then some ⟨coll, i, method, error, none⟩ else none
    | some (.map m) =>
      m.filterMap fun p =>
        if getExisting c coll p.1 then some ⟨coll, p.1, method, error, none⟩ else none
    | none => []

/-- src: connection.ts `handleMessage`, cases `'bf' | 'bs' | 'bu'`. The
prologue wraps a present `message.error` into a local `err` and then
`delete message.error`; the bulk branch passes the *message* on, so
`_handleBulkMessage` reads the post-deletion `message.error`. -/
def handleBulkReply (c : Conn) (coll : String)
    (data : Option (List (String × Nat))) (b : Option BulkB)
    (error : Option ErrEnv) (method : DocMethod) : List DocCall :=
  let errorAfterPrologue : Option ErrEnv := if error.isSome then none else error
  handleBulkMessage c coll data b errorAfterPrologue method

/-- The public entry points that drive the connection state machine
(src: connection.ts `bindToSocket`'s installed callbacks, `_setState`, and
the `'init'` dispatch). `recvInit` is the arrival of a server init message. -/
inductive COp
  | bindSock (readyState : Nat)
  | setSt (ns : ConnState) (reason : Option String)
  | sockOpen
  | sockClose (reason : String)
  | recvInit (protocol : Option Nat) (ty : Option String) (idStr : Option String)

/-- src: connection.ts `socket.onclose` — `'closed' | 'Closed'` map to
`closed`, `'stopped' | 'Stopped by server'` to `stopped`, anything else to
`disconnected`. -/
def closeReasonState (reason : String) : ConnState :=
  if reason = "closed" ∨ reason = "Closed" then .closed
  else if reason = "stopped" ∨ reason = "Stopped by server" then .stopped
  else .disconnected

/-- One public operation applied to the connection (events discarded).
`bindSock` is `bindToSocket`: `_setState(connectionState(socket))` followed by
`this.canSend = false`. -/
def stepOp (typeMatches : Option String → Bool) (c : Conn) : COp → Conn
  | .bindSock rs =>
    let c1 := (setState c (connectionStateOf rs) none).1
    { c1 with canSend := false }
  | .setSt ns r => (setState c ns r).1
  | .sockOpen => (setState c .connecting none).1
  | .sockClose r => (setState c (closeReasonState r) (some r)).1
  | .recvInit p ty i => (handleInit typeMatches c p ty i).1

/-- The connection as built by the constructor before `bindToSocket` runs
(src: connection.ts constructor body up to `this.state = ...`). -/
def baseConn (readyState : Nat) : Conn :=
  { state := connectionStateOf readyState, canSend := false, seq := 1,
    id := none, agent := none, collections := [], queries := [], bulk := none }

/-- The constructor: initialize the fields, then `bindToSocket(socket)`. -/
def initConn (typeMatches : Option String → Bool) (readyState : Nat) : Conn :=
  stepOp typeMatches (baseConn readyState) (.bindSock readyState)

/-- The state reached from a fresh connection after a sequence of public
operations. -/
def runConn (typeMatches : Option String → Bool) (readyState : Nat)
    (ops : List COp) : Conn :=
  ops.foldl (stepOp typeMatches) (initConn typeMatches readyState)

/-- PubSub state (src: pubsub.ts fields). `pfx` is the optional channel
prefix option; `streams` maps a channel to the ids of its live streams in
insertion order; `subscribed` lists the channels whose flag is `true`. -/
structure PS where
  pfx : Option String
  nextStreamId : Nat
  streamsCount : Int
  streams : List (String × List Nat)
  subscribed : List String
deriving DecidableEq

/-- src: pubsub.ts — `if (this.prefix) channel = this.prefix + ' ' + channel`
(an empty-string option is falsy in JS, so it does not rename). -/
def applyPfx (p : Option String) (channel : String) : String :=
  match p with
  | some s => if s = "" then channel else s ++ " " ++ channel
  | none => channel

/-- Association-list lookup for the `streams` map. -/
def lookupStreams (l : List (String × List Nat)) (ch : String) : Option (List Nat) :=
  match l with
  | [] => none
  | p :: rest => if p.1 = ch then some p.2 else lookupStreams rest ch

/-- Store a value under a channel key, replacing an existing binding or
appending a new one (JS `this.streams[channel] = ...`). -/
def setStreams (l : List (String × List Nat)) (ch : String) (v : List Nat) :
    List (String × List Nat) :=
  match l with
  | [] => [(ch, v)]
  | p :: rest => if p.1 = ch then (ch, v) :: rest else p :: setStreams rest ch v

/-- JS `delete this.streams[channel]`. -/
def delStreams (l : List (String × List Nat)) (ch : String) : List (String × List Nat) :=
  match l with
  | [] => []
  | p :: rest => if p.1 = ch then delStreams rest ch else p :: delStreams rest ch

/-- JS `delete map[stream.id]` on the inner id map (ids are unique keys). -/
def eraseId (m : List Nat) (sid : Nat) : List Nat :=
  match m with
  | [] => []
  | x :: xs => if x = sid then eraseId xs sid else x :: eraseId xs sid

/-- JS `delete this.subscribed[channel]`. -/
def removeSub (l : List String) (ch : String) : List String :=
  match l with
  | [] => []
  | x :: xs => if x = ch then removeSub xs ch else x :: removeSub xs ch

/-- The synchronous outcome of `PubSub.subscribe` (src: pubsub.ts `subscribe`):
either the already-subscribed fast path, which schedules stream creation plus
the callback on the next tick via `process.nextTick` and makes no transport
call, or a delegation to the transport `_subscribe` for the (prefixed)
channel, whose acknowledgement later sets the flag and creates the stream. -/
inductive SubAct
  | nextTickCreate (ch : String)
  | transportSub (ch : String)
deriving DecidableEq

/-- Transport-level effects triggered by the PubSub core. -/
inductive PSEff
  | asyncUnsubscribe (ch : String)
deriving DecidableEq

/-- src: pubsub.ts `subscribe` — prefix the channel, then branch on the
`subscribed` flag. Synchronously the state is unchanged in both branches. -/
def psSubscribe (ps : PS) (channel : String) : PS × SubAct :=
  let ch := applyPfx ps.pfx channel
  if ch ∈ ps.subscribed then (ps, .nextTickCreate ch)
  else (ps, .transportSub ch)

/-- src: pubsub.ts `_createStream` — bump `streamsCount`, add a stream with
id `nextStreamId` to the channel's map, bump `nextStreamId`; returns the new
stream's id. -/
def createStream (ps : PS) (ch : String) : PS × Nat :=
  let sid := ps.nextStreamId
  let m := (lookupStreams ps.streams ch).getD []
  ({ ps with streamsCount := ps.streamsCount + 1,
             streams := setStreams ps.streams ch (m ++ [sid]),
             nextStreamId := sid + 1 }, sid)

/-- Run the deferred already-subscribed branch of `subscribe`: on the next
tick `_createStream(channel)` runs and the callback receives the stream. -/
def runNextTickCreate (ps : PS) (act : SubAct) : PS × Option Nat :=
  match act with
  | .nextTickCreate ch => let r := createStream ps ch; (r.1, some r.2)
  | .transportSub _ => (ps, none)

/-- src: pubsub.ts `_removeStream` — bail out if the channel has no map;
otherwise decrement `streamsCount` and delete the stream; if the inner map
still has keys stop there, else delete the channel entry, synchronously clear
the `subscribed` flag, and trigger the asynchronous transport unsubscribe. -/
def removeStream (ps : PS) (ch : String) (sid : Nat) : PS × List PSEff :=
  match lookupStreams ps.streams ch with
  | none => (ps, [])
  | some m =>
    let m' := eraseId m sid
    let ps1 : PS := { ps with streamsCount := ps.streamsCount - 1,
                              streams := setStreams ps.streams ch m' }
    if m' = [] then
      ({ ps1 with streams := delStreams ps1.streams ch,
                  subscribed := removeSub ps1.subscribed ch },
       [.asyncUnsubscribe ch])
    else (ps1, [])

/-- src: pubsub.ts `publish` — the prefixing loop
`channels[i] = this.prefix + ' ' + channels[i]`, element by element. -/
def pfxEach (p : String) : List String → List String
  | [] => []
  | c :: cs => (p ++ " " ++ c) :: pfxEach p cs

/-- What a `publish` call leaves behind: the contents of the caller's
`channels` array after the call (the loop mutates it in place) and the array
value handed to the transport `_publish` (the very same array). -/
structure PublishOutcome where
  callerChannels : List String
  transportChannels : List String
deriving DecidableEq

/-- src: pubsub.ts `publish` — prefix in place when the option is truthy,
then delegate the same array to `_publish`. -/
def psPublish (ps : PS) (channels : List String) : PublishOutcome :=
  let chs :=
    match ps.pfx with
    | some p => if p = "" then channels else pfxEach p channels
    | none => channels
  ⟨chs, chs⟩

/-- All stream ids in the map are below `nextStreamId` (holds for every state
built by the operations; hypothesis for freshness statements). -/
def psWf (ps : PS) : Bool :=
  ps.streams.all (fun p => p.2.all (fun i => i < ps.nextStreamId))

/-- Helper: the `types.map[type] === types.defaultType` check used in concrete
runs — the local default type is named `"ot"`. -/
def tmDefault : Option String → Bool := fun t => t == some "ot"

/-- C10: `_setState` with `newState` equal to the current state returns
immediately: the connection is unchanged and no reset, notification, frame,
or event of any kind occurs. -/
theorem setState_self_noop (c : Conn) (reason : Option String) :
    setState c c.state reason = (c, []) := by
  simp [setState]

/-- C3 fails as stated: `_setState('connecting')` while already `connecting`
targets `connecting` from a state outside {disconnected, stopped, closed},
yet the call is a silent no-op — no `error` event with code 5007 is emitted. -/
theorem setState_self_illegal_silent :
    setState
      { state := .connecting, canSend := false, seq := 1, id := none, agent := none,
        collections := [], queries := [], bulk := none } ConnState.connecting none =
    ({ state := .connecting, canSend := false, seq := 1, id := none, agent := none,
       collections := [], queries := [], bulk := none }, []) := by
  decide

/-- C3 (amended): for every `_setState` call with `newState` different from
the current state that requests an illegal transition (to `connecting` from
outside {disconnected, stopped, closed}, or to `connected` from outside
{connecting}), the connection is left entirely unchanged and the only
emission is an `error` event with code 5007 and message
`Cannot transition directly from <old> to <new>`. -/
theorem setState_illegal_rejected (c : Conn) (ns : ConnState) (reason : Option String)
    (hne : c.state ≠ ns)
    (hill : (ns = .connecting ∧ c.state ≠ .disconnected ∧ c.state ≠ .stopped ∧ c.state ≠ .closed)
        ∨ (ns = .connected ∧ c.state ≠ .connecting)) :
    setState c ns reason =
      (c, [.errorEvt 5007
        ("Cannot transition directly from " ++ stateName c.state ++ " to " ++ stateName ns)]) := by
  unfold setState
  rw [if_neg hne, if_pos hill]

/-- Witness for `setState_illegal_rejected` at state `connected`, requested
state `connecting`. -/
theorem setState_illegal_rejected_witness :
    setState
      { state := .connected, canSend := true, seq := 5, id := some "c1", agent := none,
        collections := [("books", ["d1"])], queries := [2], bulk := none }
      ConnState.connecting none =
    ({ state := .connected, canSend := true, seq := 5, id := some "c1", agent := none,
       collections := [("books", ["d1"])], queries := [2], bulk := none },
     [.errorEvt 5007 ("Cannot transition directly from " ++ stateName .connected
        ++ " to " ++ stateName .connecting)]) :=
  setState_illegal_rejected _ ConnState.connecting none (by decide) (by decide)

/-- C4: every accepted transition into `disconnected`, `closed`, or `stopped`
resets `seq` to 1 and clears the client id and the agent reference, while the
document registry and the query registry are exactly preserved. -/
theorem setState_reset_preserves_registries (c : Conn) (ns : ConnState)
    (reason : Option String)
    (hns : ns = .disconnected ∨ ns = .closed ∨ ns = .stopped)
    (hne : c.state ≠ ns) :
    (setState c ns reason).1.seq = 1 ∧ (setState c ns reason).1.id = none ∧
    (setState c ns reason).1.agent = none ∧
    (setState c ns reason).1.collections = c.collections ∧
    (setState c ns reason).1.queries = c.queries := by
  rcases hns with rfl | rfl | rfl <;>
    simp [setState, hne, resetConn]

/-- Witness for `setState_reset_preserves_registries`: a close while
`connected` with a populated registry. -/
theorem setState_reset_preserves_registries_witness :
    (setState
      { state := .connected, canSend := true, seq := 7, id := some "c1", agent := some "a",
        collections := [("books", ["d1", "d2"])], queries := [3], bulk := none }
      ConnState.disconnected (some "Request failed")).1.seq = 1 ∧
    (setState
      { state := .connected, canSend := true, seq := 7, id := some "c1", agent := some "a",
        collections := [("books", ["d1", "d2"])], queries := [3], bulk := none }
      ConnState.disconnected (some "Request failed")).1.collections =
        [("books", ["d1", "d2"])] := by
  have h := setState_reset_preserves_registries
    { state := .connected, canSend := true, seq := 7, id := some "c1", agent := some "a",
      collections := [("books", ["d1", "d2"])], queries := [3], bulk := none }
    ConnState.disconnected (some "Request failed") (by decide) (by decide)
  exact ⟨h.1, h.2.2.2.1⟩

/-- One-direction invariant preserved by `_setState`: if `canSend` implies
`connected` before the call, it does after. -/
theorem setState_canSend_inv (c : Conn) (ns : ConnState) (reason : Option String)
    (h : c.canSend = true → c.state = .connected) :
    (setState c ns reason).1.canSend = true → (setState c ns reason).1.state = .connected := by
  unfold setState
  by_cases h1 : c.state = ns
  · simpa [h1] using h
  · rw [if_neg h1]
    by_cases h2 : (ns = .connecting ∧ c.state ≠ .disconnected ∧ c.state ≠ .stopped
        ∧ c.state ≠ .closed) ∨ (ns = .connected ∧ c.state ≠ .connecting)
    · simpa [h2] using h
    · rw [if_neg h2]
      cases ns <;> simp [isConnected, resetConn, apply_ite Conn.canSend, apply_ite Conn.state]

/-- The invariant is preserved by the init handler. -/
theorem handleInit_canSend_inv (typeMatches : Option String → Bool) (c : Conn)
    (p : Option Nat) (ty idStr : Option String)
    (h : c.canSend = true → c.state = .connected) :
    (handleInit typeMatches c p ty idStr).1.canSend = true →
    (handleInit typeMatches c p ty idStr).1.state = .connected := by
  unfold handleInit
  by_cases hp : p ≠ some 1
  · simpa [hp] using h
  · rw [if_neg hp]
    by_cases ht : typeMatches ty = false
    · simpa [ht] using h
    · rw [if_neg ht]
      cases idStr with
      | none => simpa using h
      | some s => exact setState_canSend_inv { c with id := some s } .connected none h

/-- The invariant is preserved by every public operation. -/
theorem stepOp_canSend_inv (typeMatches : Option String → Bool) (c : Conn) (op : COp)
    (h : c.canSend = true → c.state = .connected) :
    (stepOp typeMatches c op).canSend = true →
    (stepOp typeMatches c op).state = .connected := by
  cases op with
  | bindSock rs => intro hcs; simp [stepOp] at hcs
  | setSt ns r => exact setState_canSend_inv c ns r h
  | sockOpen => exact setState_canSend_inv c .connecting none h
  | sockClose r => exact setState_canSend_inv c (closeReasonState r) (some r) h
  | recvInit p ty i => exact handleInit_canSend_inv typeMatches c p ty i h

/-- The invariant is preserved by any sequence of public operations. -/
theorem foldl_canSend_inv (typeMatches : Option String → Bool) (ops : List COp) :
    ∀ (c : Conn), (c.canSend = true → c.state = .connected) →
      ((ops.foldl (stepOp typeMatches) c).canSend = true →
        (ops.foldl (stepOp typeMatches) c).state = .connected) := by
  induction ops with
  | nil => exact fun c hc => hc
  | cons o os ih =>
    exact fun c hc => ih (stepOp typeMatches c o) (stepOp_canSend_inv typeMatches c o hc)

/-- C2 (amended): in every reachable state of the connection — any sequence
of public operations from a fresh connection — `canSend = true` implies
`state = connected`. (The converse direction of the claimed equivalence is
refuted by `runConn_connected_canSend_false`.) -/
theorem runConn_canSend_implies_connected (typeMatches : Option String → Bool)
    (readyState : Nat) (ops : List COp)
    (h : (runConn typeMatches readyState ops).canSend = true) :
    (runConn typeMatches readyState ops).state = .connected := by
  refine foldl_canSend_inv typeMatches ops (initConn typeMatches readyState)
    (fun hcs => absurd hcs ?_) h
  simp [initConn, stepOp]

/-- Witness for `runConn_canSend_implies_connected`: after a completed
handshake `canSend` is true and the state is indeed `connected`. -/
theorem runConn_canSend_implies_connected_witness :
    (runConn tmDefault 0 [COp.recvInit (some 1) (some "ot") (some "c7")]).canSend = true ∧
    (runConn tmDefault 0 [COp.recvInit (some 1) (some "ot") (some "c7")]).state =
      ConnState.connected :=
  ⟨by decide, runConn_canSend_implies_connected tmDefault 0 _ (by decide)⟩

/-- C2 fails as stated: rebinding a socket while connected is a reachable
sequence of public operations after which `state = connected` but
`canSend = false` — `bindToSocket`'s rejected `_setState('connecting')`
leaves the state, and the subsequent `this.canSend = false` breaks the
claimed equivalence. -/
theorem runConn_connected_canSend_false :
    (runConn tmDefault 0
      [COp.recvInit (some 1) (some "ot") (some "c7"), COp.bindSock 0]).state =
        ConnState.connected ∧
    (runConn tmDefault 0
      [COp.recvInit (some 1) (some "ot") (some "c7"), COp.bindSock 0]).canSend = false := by
  decide

/-- C6 (amended): for every inbound init message, a protocol other than 1
yields only an `error` with code 4019 and an unchanged connection; a type
mismatch yields only code 4020; a non-string id yields only code 4021; and a
fully valid init sets the client id and then calls `_setState('connected')`,
which transitions exactly when the connection is currently `connecting` —
from every other state the state is left unchanged (while the client id is
nevertheless set). -/
theorem handleInit_spec (typeMatches : Option String → Bool) (c : Conn)
    (p : Option Nat) (ty idStr : Option String) :
    (p ≠ some 1 →
      handleInit typeMatches c p ty idStr = (c, [.errorEvt 4019 "Invalid protocol version"])) ∧
    (p = some 1 → typeMatches ty = false →
      handleInit typeMatches c p ty idStr = (c, [.errorEvt 4020 "Invalid default type"])) ∧
    (p = some 1 → typeMatches ty = true → idStr = none →
      handleInit typeMatches c p ty idStr = (c, [.errorEvt 4021 "Invalid client id"])) ∧
    (∀ s, p = some 1 → typeMatches ty = true → idStr = some s → c.state = .connecting →
      (handleInit typeMatches c p ty idStr).1.state = .connected ∧
      (handleInit typeMatches c p ty idStr).1.id = some s ∧
      (handleInit typeMatches c p ty idStr).1.canSend = true) ∧
    (∀ s, p = some 1 → typeMatches ty = true → idStr = some s → c.state ≠ .connecting →
      (handleInit typeMatches c p ty idStr).1.state = c.state ∧
      (handleInit typeMatches c p ty idStr).1.id = some s) := by
  refine ⟨fun hp => by simp [handleInit, hp], ?_, ?_, ?_, ?_⟩
  · intro hp ht
    simp [handleInit, hp, ht]
  · intro hp ht hi
    simp [handleInit, hp, ht, hi]
  · intro s hp ht hi hst
    subst hp hi
    simp [handleInit, ht, setState, hst, isConnected, resetConn]
  · intro s hp ht hi hst
    subst hp hi
    by_cases hc : c.state = ConnState.connected
    · simp [handleInit, ht, setState, hc]
    · simp [handleInit, ht, setState, hc, hst]

/-- Witness for `handleInit_spec`: a valid init on a `connecting` connection
connects and records the client id; a valid init on an already-`connected`
connection leaves the state as it is (the same-state `_setState` no-op). -/
theorem handleInit_spec_witness :
    (handleInit tmDefault
      { state := .connecting, canSend := false, seq := 1, id := none, agent := none,
        collections := [], queries := [], bulk := none }
      (some 1) (some "ot") (some "c9")).1.state = ConnState.connected ∧
    (handleInit tmDefault
      { state := .connecting, canSend := false, seq := 1, id := none, agent := none,
        collections := [], queries := [], bulk := none }
      (some 1) (some "ot") (some "c9")).1.id = some "c9" ∧
    (handleInit tmDefault
      { state := .connected, canSend := true, seq := 3, id := some "c9", agent := none,
        collections := [], queries := [], bulk := none }
      (some 1) (some "ot") (some "c10")).1.state = ConnState.connected := by
  have h := (handleInit_spec tmDefault
    { state := .connecting, canSend := false, seq := 1, id := none, agent := none,
      collections := [], queries := [], bulk := none }
    (some 1) (some "ot") (some "c9")).2.2.2.1 "c9" rfl (by decide) rfl rfl
  have h2 := (handleInit_spec tmDefault
    { state := .connected, canSend := true, seq := 3, id := some "c9", agent := none,
      collections := [], queries := [], bulk := none }
    (some 1) (some "ot") (some "c10")).2.2.2.2 "c10" rfl (by decide) rfl (by decide)
  exact ⟨h.1, h.2.1, h2.1⟩

/-- C6 fails as stated: a fully valid init received while the connection is
`disconnected` sets the client id but does not transition to `connected` —
`_setState` rejects the transition and emits the 5007 error instead. -/
theorem handleInit_not_connecting_cex :
    (handleInit tmDefault
      { state := .disconnected, canSend := false, seq := 1, id := none, agent := none,
        collections := [], queries := [], bulk := none }
      (some 1) (some "ot") (some "x")).1.state = ConnState.disconnected ∧
    (handleInit tmDefault
      { state := .disconnected, canSend := false, seq := 1, id := none, agent := none,
        collections := [], queries := [], bulk := none }
      (some 1) (some "ot") (some "x")).1.id = some "x" ∧
    (handleInit tmDefault
      { state := .disconnected, canSend := false, seq := 1, id := none, agent := none,
        collections := [], queries := [], bulk := none }
      (some 1) (some "ot") (some "x")).2 =
      [.errorEvt 5007 "Cannot transition directly from disconnected to connected"] := by
  decide

/-- The version-absent group contributes zero frames for an empty group and
exactly one otherwise. -/
theorem idFrames_length (a c : String) (l : List String) :
    (idFrames a c l).length = if l = [] then 0 else 1 := by
  cases l with
  | nil => rfl
  | cons x xs => cases xs <;> rfl

/-- The versioned group contributes zero frames for an empty group and
exactly one otherwise. -/
theorem versionFrames_length (a c : String) (l : List (String × Nat)) :
    (versionFrames a c l).length = if l = [] then 0 else 1 := by
  cases l with
  | nil => rfl
  | cons x xs => cases xs <;> rfl

/-- C5: for every (collection, action) pair flushed by `endBulk`, `_sendBulk`
emits between 0 and 2 frames: the version-absent group and the versioned
group each contribute no frame when empty, the single-form frame when they
hold exactly one entry, and the `b`-prefixed bulk-form frame when they hold
more; two frames occur exactly when both groups are non-empty. -/
theorem sendBulk_frames_spec (a c : String) (vs : List (String × Option Nat)) :
    sendBulk a c (some vs) = idFrames a c (bulkIds vs) ++ versionFrames a c (bulkVersions vs) ∧
    (sendBulk a c (some vs)).length ≤ 2 ∧
    ((sendBulk a c (some vs)).length = 2 ↔ bulkIds vs ≠ [] ∧ bulkVersions vs ≠ []) ∧
    (bulkIds vs = [] → idFrames a c (bulkIds vs) = []) ∧
    (∀ i, bulkIds vs = [i] → idFrames a c (bulkIds vs) = [Frame.single a c i]) ∧
    (∀ i j rest, bulkIds vs = i :: j :: rest →
      idFrames a c (bulkIds vs) = [Frame.bulkArr ("b" ++ a) c (bulkIds vs)]) ∧
    (bulkVersions vs = [] → versionFrames a c (bulkVersions vs) = []) ∧
    (∀ i v, bulkVersions vs = [(i, v)] →
      versionFrames a c (bulkVersions vs) = [Frame.singleV a c i v]) ∧
    (∀ e f rest, bulkVersions vs = e :: f :: rest →
      versionFrames a c (bulkVersions vs) = [Frame.bulkMap ("b" ++ a) c (bulkVersions vs)]) ∧
    sendBulk a c none = [] := by
  have h1 := idFrames_length a c (bulkIds vs)
  have h2 := versionFrames_length a c (bulkVersions vs)
  refine ⟨rfl, ?_, ?_, ?_, ?_, ?_, ?_, ?_, ?_, rfl⟩
  · simp only [sendBulk, List.length_append, h1, h2]
    split_ifs <;> omega
  · simp only [sendBulk, List.length_append, h1, h2]
    split_ifs <;> simp_all
  · intro h; rw [h]; rfl
  · intro i h; rw [h]; rfl
  · intro i j rest h; rw [h]; rfl
  · intro h; rw [h]; rfl
  · intro i v h; rw [h]; rfl
  · intro e f rest h; rw [h]; rfl

/-- Witness for `sendBulk_frames_spec`: three subscribes, versions 1, 1, ⊥,
flush to exactly two frames (the S3 scenario of the spec). -/
theorem sendBulk_frames_spec_witness :
    (sendBulk "s" "books" (some [("d1", some 1), ("d2", some 1), ("d3", none)])).length = 2 ∧
    sendBulk "s" "books" (some [("d1", some 1), ("d2", some 1), ("d3", none)]) =
      [Frame.single "s" "books" "d3", Frame.bulkMap "bs" "books" [("d1", 1), ("d2", 1)]] :=
  ⟨(sendBulk_frames_spec "s" "books" [("d1", some 1), ("d2", some 1), ("d3", none)]).2.2.1.mpr
      (by decide),
   by decide⟩

/-- C1: evaluation of the code at the failing input. A bulk subscribe reply
carrying both per-doc `data` and an error envelope (and likewise a reply
carrying `b` as an array, or as a mapping) reaches the registered document
with `err = none`: `handleMessage` deleted `message.error` after wrapping it,
and `_handleBulkMessage` forwards the deleted field, so the message-level
error never reaches the documents. -/
theorem handleBulkReply_drops_error :
    handleBulkReply
      { state := .connected, canSend := true, seq := 2, id := some "c1", agent := none,
        collections := [("books", ["d1"])], queries := [], bulk := none }
      "books" (some [("d1", 7)]) none (some ⟨123, "oops"⟩) DocMethod.handleSubscribe =
      [⟨"books", "d1", DocMethod.handleSubscribe, none, some 7⟩] ∧
    handleBulkReply
      { state := .connected, canSend := true, seq := 2, id := some "c1", agent := none,
        collections := [("books", ["d1"])], queries := [], bulk := none }
      "books" none (some (.arr ["d1"])) (some ⟨123, "oops"⟩) DocMethod.handleFetch =
      [⟨"books", "d1", DocMethod.handleFetch, none, none⟩] ∧
    handleBulkReply
      { state := .connected, canSend := true, seq := 2, id := some "c1", agent := none,
        collections := [("books", ["d1"])], queries := [], bulk := none }
      "books" none (some (.map [("d1", 4)])) (some ⟨123, "oops"⟩) DocMethod.handleUnsubscribe =
      [⟨"books", "d1", DocMethod.handleUnsubscribe, none, none⟩] := by
  decide

/-- After `delete streams[ch]`, a lookup of `ch` finds nothing. -/
theorem lookupStreams_delStreams (l : List (String × List Nat)) (ch : String) :
    lookupStreams (delStreams l ch) ch = none := by
  induction l with
  | nil => rfl
  | cons p rest ih =>
    by_cases h : p.1 = ch <;> simp [delStreams, lookupStreams, h, ih]

/-- After `delete subscribed[ch]`, the channel is no longer flagged. -/
theorem not_mem_removeSub (l : List String) (ch : String) : ch ∉ removeSub l ch := by
  induction l with
  | nil => simp [removeSub]
  | cons x xs ih =>
    by_cases h : x = ch <;> simp [removeSub, h, ih]
    exact fun hc => h hc.symm

/-- C7: a `subscribe` on a channel whose (prefixed) `subscribed` flag is set
makes no transport `_subscribe` call and changes no state synchronously — it
only schedules the next-tick branch; running that branch creates a fresh
stream (id `nextStreamId`, unused by any live stream) and hands it to the
callback. -/
theorem psSubscribe_already_subscribed (ps : PS) (channel : String)
    (hsub : applyPfx ps.pfx channel ∈ ps.subscribed)
    (hwf : psWf ps = true) :
    psSubscribe ps channel = (ps, SubAct.nextTickCreate (applyPfx ps.pfx channel)) ∧
    (∀ ch, psSubscribe ps channel ≠ (ps, SubAct.transportSub ch)) ∧
    (runNextTickCreate ps (psSubscribe ps channel).2).2 = some ps.nextStreamId ∧
    (runNextTickCreate ps (psSubscribe ps channel).2).1.nextStreamId =
      ps.nextStreamId + 1 ∧
    (∀ p ∈ ps.streams, ps.nextStreamId ∉ p.2) := by
  refine ⟨by simp [psSubscribe, hsub], ?_, ?_, ?_, ?_⟩
  · intro ch h
    rw [psSubscribe] at h
    simp only [hsub, if_pos] at h
    exact SubAct.noConfusion (congrArg Prod.snd h)
  · simp [psSubscribe, hsub, runNextTickCreate, createStream]
  · simp [psSubscribe, hsub, runNextTickCreate, createStream]
  · intro p hp hmem
    have h := List.all_eq_true.mp (List.all_eq_true.mp hwf p hp) _ hmem
    exact absurd (of_decide_eq_true h) (lt_irrefl _)

/-- Witness for `psSubscribe_already_subscribed`: channel `room` already
subscribed, one live stream with id 3. -/
theorem psSubscribe_already_subscribed_witness :
    psSubscribe { pfx := none, nextStreamId := 5, streamsCount := 1,
                  streams := [("room", [3])], subscribed := ["room"] } "room" =
      ({ pfx := none, nextStreamId := 5, streamsCount := 1,
         streams := [("room", [3])], subscribed := ["room"] },
       SubAct.nextTickCreate "room") :=
  (psSubscribe_already_subscribed
    { pfx := none, nextStreamId := 5, streamsCount := 1,
      streams := [("room", [3])], subscribed := ["room"] } "room"
    (by decide) (by decide)).1

/-- C8: when the last stream of a channel closes, `_removeStream` decrements
`streamsCount`, removes the channel from `streams`, synchronously clears the
`subscribed` flag, and triggers the asynchronous transport unsubscribe; any
`subscribe` for that channel evaluated on the resulting state (i.e. before
the unsubscribe completes) goes to the transport `_subscribe` branch. -/
theorem removeStream_last (ps : PS) (ch : String) (sid : Nat) (m : List Nat)
    (hm : lookupStreams ps.streams ch = some m)
    (hlast : eraseId m sid = []) :
    (removeStream ps ch sid).2 = [PSEff.asyncUnsubscribe ch] ∧
    (removeStream ps ch sid).1.streamsCount = ps.streamsCount - 1 ∧
    lookupStreams (removeStream ps ch sid).1.streams ch = none ∧
    ch ∉ (removeStream ps ch sid).1.subscribed ∧
    (∀ raw, applyPfx ps.pfx raw = ch →
      psSubscribe (removeStream ps ch sid).1 raw =
        ((removeStream ps ch sid).1, SubAct.transportSub ch)) := by
  have hr : removeStream ps ch sid =
      ({ ps with streamsCount := ps.streamsCount - 1,
                 streams := delStreams (setStreams ps.streams ch (eraseId m sid)) ch,
                 subscribed := removeSub ps.subscribed ch },
       [PSEff.asyncUnsubscribe ch]) := by
    rw [removeStream, hm]
    simp [hlast]
  refine ⟨by rw [hr], by rw [hr], ?_, ?_, ?_⟩
  · rw [hr]
    exact lookupStreams_delStreams _ ch
  · rw [hr]
    exact not_mem_removeSub _ ch
  · intro raw hraw
    rw [hr, psSubscribe]
    have hpfx : applyPfx ps.pfx raw = ch := hraw
    simp only [hpfx]
    rw [if_neg (not_mem_removeSub _ ch)]

/-- A PubSub state with a single live stream (id 3) on channel `room`. -/
def psRoom : PS :=
  { pfx := none, nextStreamId := 7, streamsCount := 1,
    streams := [("room", [3])], subscribed := ["room"] }

/-- Witness for `removeStream_last`: the single stream (id 3) of `room`
closes; a subsequent `subscribe("room")` goes back to the transport. -/
theorem removeStream_last_witness :
    (removeStream psRoom "room" 3).2 = [PSEff.asyncUnsubscribe "room"] ∧
    psSubscribe (removeStream psRoom "room" 3).1 "room" =
      ((removeStream psRoom "room" 3).1, SubAct.transportSub "room") := by
  have h := removeStream_last psRoom "room" 3 [3] (by decide) (by decide)
  exact ⟨h.1, h.2.2.2.2 "room" rfl⟩

/-- The prefixing loop replaces each element by the prefixed string. -/
theorem pfxEach_eq_map (p : String) (l : List String) :
    pfxEach p l = l.map (fun c => p ++ " " ++ c) := by
  induction l with
  | nil => rfl
  | cons c cs ih => simp [pfxEach, ih]

/-- C9: `publish` with a (truthy) configured channel-prefix option rewrites
the caller's `channels` array in place — each element becomes
`prefix + ' ' + channel` — and hands that very array to the transport
`_publish`; without a truthy option the array is left unchanged. -/
theorem psPublish_prefixes_in_place (ps : PS) (channels : List String) :
    (psPublish ps channels).transportChannels = (psPublish ps channels).callerChannels ∧
    (∀ p, ps.pfx = some p → p ≠ "" →
      (psPublish ps channels).callerChannels = pfxEach p channels ∧
      (psPublish ps channels).callerChannels = channels.map (fun c => p ++ " " ++ c)) ∧
    (ps.pfx = none → (psPublish ps channels).callerChannels = channels) ∧
    (ps.pfx = some "" → (psPublish ps channels).callerChannels = channels) := by
  refine ⟨rfl, ?_, ?_, ?_⟩
  · intro p hp hne
    constructor <;> simp [psPublish, hp, hne, pfxEach_eq_map]
  · intro hp
    simp [psPublish, hp]
  · intro hp
    simp [psPublish, hp]

/-- Witness for `psPublish_prefixes_in_place` with option `"p"` and two
channels. -/
theorem psPublish_prefixes_in_place_witness :
    (psPublish { pfx := some "p", nextStreamId := 1, streamsCount := 0,
                 streams := [], subscribed := [] } ["a", "b"]).callerChannels =
      ["a", "b"].map (fun c => "p" ++ " " ++ c) :=
  ((psPublish_prefixes_in_place
    { pfx := some "p", nextStreamId := 1, streamsCount := 0,
      streams := [], subscribed := [] } ["a", "b"]).2.1 "p" rfl (by decide)).2
